import Mathlib

/-!
# Verification of `pulumi/__main__.py` (pulumi-rails-example)

A shallow embedding of the single Pulumi program `src/pulumi/__main__.py`.
The Python module body is a linear sequence of resource-constructor calls
followed by two `pulumi.export` calls.  We embed:

* one Lean structure per Pulumi args record, with the same field names the
  source passes as keyword arguments;
* a `Resolved` record of the engine-resolved output attributes
  (`vpc.id`, `ecr_repo.repository_url`, `alb.dns_name`, ...) that the source
  references lazily through resource handles;
* a tiny statement language `Stmt` modelling what a Python module body
  *could* do (plain declaration, export, conditional declaration, loop,
  try/except fallback) together with an interpreter `runFrom` in which an
  engine oracle may make any engine call raise; the embedded program
  `scriptStmts` is the source's module body, statement for statement, in
  textual order.
-/

/-- `ec2.Vpc` arguments (lines 6–11). -/
structure VpcArgs where
  cidr_block : String
  enable_dns_hostnames : Bool
  enable_dns_support : Bool
deriving DecidableEq, Repr

/-- `ec2.Subnet` arguments (lines 13–27). -/
structure SubnetArgs where
  vpc_id : String
  cidr_block : String
  availability_zone : String
  map_public_ip_on_launch : Bool
deriving DecidableEq, Repr

/-- `ec2.InternetGateway` arguments (line 29). -/
structure InternetGatewayArgs where
  vpc_id : String
deriving DecidableEq, Repr

/-- `ec2.RouteTableRouteArgs` (lines 35–38). -/
structure RouteTableRouteArgs where
  cidr_block : String
  gateway_id : String
deriving DecidableEq, Repr

/-- `ec2.RouteTable` arguments (lines 31–40). -/
structure RouteTableArgs where
  vpc_id : String
  routes : List RouteTableRouteArgs
deriving DecidableEq, Repr

/-- `ec2.RouteTableAssociation` arguments (lines 42–48). -/
structure RouteTableAssociationArgs where
  subnet_id : String
  route_table_id : String
deriving DecidableEq, Repr

/-- `ec2.SecurityGroupIngressArgs` (lines 56–61). -/
structure SecurityGroupIngressArgs where
  protocol : String
  from_port : Nat
  to_port : Nat
  cidr_blocks : List String
deriving DecidableEq, Repr

/-- `ec2.SecurityGroupEgressArgs` (lines 64–69). -/
structure SecurityGroupEgressArgs where
  protocol : String
  from_port : Nat
  to_port : Nat
  cidr_blocks : List String
deriving DecidableEq, Repr

/-- `ec2.SecurityGroup` arguments (lines 51–71). -/
structure SecurityGroupArgs where
  description : String
  vpc_id : String
  ingress : List SecurityGroupIngressArgs
  egress : List SecurityGroupEgressArgs
deriving DecidableEq, Repr

/-- `ecr.Repository` arguments (line 74). -/
structure RepositoryArgs where
  name : String
deriving DecidableEq, Repr

/-- `ecs.Cluster` arguments (line 77). -/
structure ClusterArgs where
  name : String
deriving DecidableEq, Repr

/-- One statement of the IAM assume-role policy document (lines 84–91).
The source nests the principal as `{"Service": ...}`; we keep the single
service string as `principal_service`. -/
structure PolicyStatement where
  sid : String
  effect : String
  principal_service : String
  action : String
deriving DecidableEq, Repr

/-- The IAM policy document the source passes to `json.dumps`
(lines 81–93).  The source serialises it to a JSON string with the
standard-library `json.dumps`; we keep the structured value. -/
structure PolicyDocument where
  version : String
  statement : List PolicyStatement
deriving DecidableEq, Repr

/-- `iam.Role` arguments (lines 79–94). -/
structure RoleArgs where
  assume_role_policy : PolicyDocument
deriving DecidableEq, Repr

/-- One entry of `portMappings` (line 111). -/
structure PortMapping where
  containerPort : Nat
  hostPort : Nat
  protocol : String
deriving DecidableEq, Repr

/-- One entry of `secrets` (lines 114–117). -/
structure ContainerSecret where
  name : String
  valueFrom : String
deriving DecidableEq, Repr

/-- One container definition (lines 107–119).  The source serialises the
list of these to a JSON string via `pulumi.Output.json_dumps`; we keep the
structured value. -/
structure ContainerDefinition where
  name : String
  image : String
  portMappings : List PortMapping
  secrets : List ContainerSecret
deriving DecidableEq, Repr

/-- `ecs.TaskDefinition` arguments (lines 97–122). -/
structure TaskDefinitionArgs where
  family : String
  cpu : String
  memory : String
  network_mode : String
  requires_compatibilities : List String
  execution_role_arn : String
  container_definitions : List ContainerDefinition
deriving DecidableEq, Repr

/-- `lb.LoadBalancer` arguments (lines 125–130). -/
structure LoadBalancerArgs where
  load_balancer_type : String
  security_groups : List String
  subnets : List String
deriving DecidableEq, Repr

/-- `lb.TargetGroup` arguments (lines 132–134). -/
structure TargetGroupArgs where
  port : Nat
  protocol : String
  target_type : String
  vpc_id : String
deriving DecidableEq, Repr

/-- `lb.ListenerDefaultActionArgs` (lines 141–144). -/
structure ListenerDefaultActionArgs where
  type : String
  target_group_arn : String
deriving DecidableEq, Repr

/-- `lb.Listener` arguments (lines 136–146). -/
structure ListenerArgs where
  load_balancer_arn : String
  port : Nat
  default_actions : List ListenerDefaultActionArgs
deriving DecidableEq, Repr

/-- `ecs.ServiceNetworkConfigurationArgs` (lines 154–158). -/
structure ServiceNetworkConfigurationArgs where
  assign_public_ip : Bool
  subnets : List String
  security_groups : List String
deriving DecidableEq, Repr

/-- `ecs.ServiceLoadBalancerArgs` (lines 160–164). -/
structure ServiceLoadBalancerArgs where
  target_group_arn : String
  container_name : String
  container_port : Nat
deriving DecidableEq, Repr

/-- `ecs.ServiceCapacityProviderStrategyArgs` (lines 167–170). -/
structure ServiceCapacityProviderStrategyArgs where
  capacity_provider : String
  weight : Nat
deriving DecidableEq, Repr

/-- `ecs.Service` arguments (lines 149–172). -/
structure ServiceArgs where
  cluster : String
  desired_count : Nat
  task_definition : String
  network_configuration : ServiceNetworkConfigurationArgs
  load_balancers : List ServiceLoadBalancerArgs
  capacity_provider_strategies : List ServiceCapacityProviderStrategyArgs
deriving DecidableEq, Repr

/-- The engine-resolved output attributes that the source reads from
resource handles (`vpc.id`, `internet_gateway.id`, `role.arn`,
`ecr_repo.repository_url`, `alb.arn`, `alb.dns_name`, ...).  The Pulumi
engine resolves them during apply; the script treats them as opaque
strings. -/
structure Resolved where
  vpc_id : String
  public_subnet_1_id : String
  public_subnet_2_id : String
  internet_gateway_id : String
  route_table_id : String
  security_group_id : String
  role_arn : String
  repository_url : String
  cluster_arn : String
  task_definition_arn : String
  alb_arn : String
  alb_dns_name : String
  target_group_arn : String
deriving DecidableEq, Repr

/-- The kind of AWS resource a declaration creates (one per constructor
the source calls). -/
inductive ResourceType where
  | vpc
  | subnet
  | internetGateway
  | routeTable
  | routeTableAssociation
  | securityGroup
  | ecrRepository
  | ecsCluster
  | iamRole
  | ecsTaskDefinition
  | applicationLoadBalancer
  | targetGroup
  | albListener
  | ecsService
deriving DecidableEq, Repr

/-- One declared resource: the constructor called, the Pulumi resource
name (first positional argument), and the args record. -/
inductive Resource where
  | vpc (pulumiName : String) (args : VpcArgs)
  | subnet (pulumiName : String) (args : SubnetArgs)
  | internetGateway (pulumiName : String) (args : InternetGatewayArgs)
  | routeTable (pulumiName : String) (args : RouteTableArgs)
  | routeTableAssociation (pulumiName : String) (args : RouteTableAssociationArgs)
  | securityGroup (pulumiName : String) (args : SecurityGroupArgs)
  | ecrRepository (pulumiName : String) (args : RepositoryArgs)
  | ecsCluster (pulumiName : String) (args : ClusterArgs)
  | iamRole (pulumiName : String) (args : RoleArgs)
  | ecsTaskDefinition (pulumiName : String) (args : TaskDefinitionArgs)
  | applicationLoadBalancer (pulumiName : String) (args : LoadBalancerArgs)
  | targetGroup (pulumiName : String) (args : TargetGroupArgs)
  | albListener (pulumiName : String) (args : ListenerArgs)
  | ecsService (pulumiName : String) (args : ServiceArgs)
deriving DecidableEq, Repr

instance : Inhabited Resource :=
  ⟨Resource.vpc "" ⟨"", false, false⟩⟩

/-- The kind of resource a declaration creates. -/
def Resource.rtype : Resource → ResourceType
  | .vpc _ _ => .vpc
  | .subnet _ _ => .subnet
  | .internetGateway _ _ => .internetGateway
  | .routeTable _ _ => .routeTable
  | .routeTableAssociation _ _ => .routeTableAssociation
  | .securityGroup _ _ => .securityGroup
  | .ecrRepository _ _ => .ecrRepository
  | .ecsCluster _ _ => .ecsCluster
  | .iamRole _ _ => .iamRole
  | .ecsTaskDefinition _ _ => .ecsTaskDefinition
  | .applicationLoadBalancer _ _ => .applicationLoadBalancer
  | .targetGroup _ _ => .targetGroup
  | .albListener _ _ => .albListener
  | .ecsService _ _ => .ecsService

/-! ## The source's variable bindings

One definition per assignment in the module body, keeping the Python
variable names.  Each is the args record of the corresponding constructor
call, as a function of the resolved attributes it references. -/

/-- `vpc = ec2.Vpc("myapp-vpc", ...)` (lines 6–11). -/
def vpc : VpcArgs :=
  { cidr_block := "10.0.0.0/16"
    enable_dns_hostnames := true
    enable_dns_support := true }

/-- `public_subnet_1 = ec2.Subnet("public-subnet-1", ...)` (lines 13–19). -/
def public_subnet_1 (e : Resolved) : SubnetArgs :=
  { vpc_id := e.vpc_id
    cidr_block := "10.0.1.0/24"
    availability_zone := "us-east-1a"
    map_public_ip_on_launch := true }

/-- `public_subnet_2 = ec2.Subnet("public-subnet-2", ...)` (lines 21–27). -/
def public_subnet_2 (e : Resolved) : SubnetArgs :=
  { vpc_id := e.vpc_id
    cidr_block := "10.0.2.0/24"
    availability_zone := "us-east-1b"
    map_public_ip_on_launch := true }

/-- `internet_gateway = ec2.InternetGateway("myapp-igw", vpc_id=vpc.id)` (line 29). -/
def internet_gateway (e : Resolved) : InternetGatewayArgs :=
  { vpc_id := e.vpc_id }

/-- `route_table = ec2.RouteTable("myapp-rt", ...)` (lines 31–40). -/
def route_table (e : Resolved) : RouteTableArgs :=
  { vpc_id := e.vpc_id
    routes := [{ cidr_block := "0.0.0.0/0", gateway_id := e.internet_gateway_id }] }

/-- `ec2.RouteTableAssociation("rta-1", ...)` (lines 42–44); unbound in the source. -/
def rta_1 (e : Resolved) : RouteTableAssociationArgs :=
  { subnet_id := e.public_subnet_1_id, route_table_id := e.route_table_id }

/-- `ec2.RouteTableAssociation("rta-2", ...)` (lines 46–48); unbound in the source. -/
def rta_2 (e : Resolved) : RouteTableAssociationArgs :=
  { subnet_id := e.public_subnet_2_id, route_table_id := e.route_table_id }

/-- `security_group = ec2.SecurityGroup("myapp-sg", ...)` (lines 51–71). -/
def security_group (e : Resolved) : SecurityGroupArgs :=
  { description := "Allow inbound traffic for the Rails app"
    vpc_id := e.vpc_id
    ingress := [{ protocol := "tcp", from_port := 80, to_port := 80,
                  cidr_blocks := ["0.0.0.0/0"] }]
    egress := [{ protocol := "-1", from_port := 0, to_port := 0,
                 cidr_blocks := ["0.0.0.0/0"] }] }

/-- `ecr_repo = ecr.Repository("myapp-repo", name="myapp-repo")` (line 74). -/
def ecr_repo : RepositoryArgs :=
  { name := "myapp-repo" }

/-- `cluster = ecs.Cluster("myapp-cluster", name="myapp-cluster")` (line 77). -/
def cluster : ClusterArgs :=
  { name := "myapp-cluster" }

/-- `role = iam.Role("myapp-task-exec-role", assume_role_policy=json.dumps({...}))`
(lines 79–94). -/
def role : RoleArgs :=
  { assume_role_policy :=
      { version := "2008-10-17"
        statement := [{ sid := ""
                        effect := "Allow"
                        principal_service := "ecs-tasks.amazonaws.com"
                        action := "sts:AssumeRole" }] } }

/-- The lambda at line 109: `lambda url: f"{url}:latest"`, applied to
`ecr_repo.repository_url`. -/
def containerImage (url : String) : String :=
  url ++ ":latest"

/-- `task_definition = ecs.TaskDefinition("myapp-task", ...)` (lines 97–122). -/
def task_definition (e : Resolved) : TaskDefinitionArgs :=
  { family := "myapp-task-family"
    cpu := "256"
    memory := "512"
    network_mode := "awsvpc"
    requires_compatibilities := ["FARGATE"]
    execution_role_arn := e.role_arn
    container_definitions :=
      [{ name := "myapp"
         image := containerImage e.repository_url
         portMappings := [{ containerPort := 3000, hostPort := 3000, protocol := "tcp" }]
         secrets := [{ name := "DATABASE_URL"
                       valueFrom := "arn:aws:ssm:us-east-1:774287600271:parameter/myapp/database_url" }] }] }

/-- `alb = lb.LoadBalancer("myapp-alb", ...)` (lines 125–130). -/
def alb (e : Resolved) : LoadBalancerArgs :=
  { load_balancer_type := "application"
    security_groups := [e.security_group_id]
    subnets := [e.public_subnet_1_id, e.public_subnet_2_id] }

/-- `target_group = lb.TargetGroup("myapp-tg", ...)` (lines 132–134). -/
def target_group (e : Resolved) : TargetGroupArgs :=
  { port := 80, protocol := "HTTP", target_type := "ip", vpc_id := e.vpc_id }

/-- `listener = lb.Listener("myapp-listener", ...)` (lines 136–146). -/
def listener (e : Resolved) : ListenerArgs :=
  { load_balancer_arn := e.alb_arn
    port := 80
    default_actions := [{ type := "forward", target_group_arn := e.target_group_arn }] }

/-- `service = ecs.Service("myapp-service", ...)` (lines 149–172). -/
def service (e : Resolved) : ServiceArgs :=
  { cluster := e.cluster_arn
    desired_count := 1
    task_definition := e.task_definition_arn
    network_configuration :=
      { assign_public_ip := true
        subnets := [e.public_subnet_1_id, e.public_subnet_2_id]
        security_groups := [e.security_group_id] }
    load_balancers := [{ target_group_arn := e.target_group_arn
                         container_name := "myapp"
                         container_port := 3000 }]
    capacity_provider_strategies := [{ capacity_provider := "FARGATE_SPOT", weight := 1 }] }

/-- The attribute access `ecr_repo.repository_url` (lines 109, 175). -/
def ecr_repo_repository_url (e : Resolved) : String :=
  e.repository_url

/-- The attribute access `alb.dns_name` (line 176). -/
def alb_dns_name (e : Resolved) : String :=
  e.alb_dns_name

/-! ## A statement language for the module body

The Python module body could branch, loop, guard a declaration, or wrap an
engine call in `try`/`except`.  `Stmt` has a constructor for each of those
shapes so that "the script uses none of them" is a statement about the
embedded program, not an artifact of the embedding. -/

/-- One top-level statement of the module body. -/
inductive Stmt where
  /-- An unconditional resource-constructor call. -/
  | declare (build : Resolved → Resource)
  /-- A `pulumi.export(key, value)` call. -/
  | exportVal (key : String) (val : Resolved → String)
  /-- A constructor call guarded by an `if`. -/
  | condDeclare (cond : Resolved → Bool) (build : Resolved → Resource)
  /-- A constructor call repeated by a loop. -/
  | repeatDeclare (count : Resolved → Nat) (build : Resolved → Resource)
  /-- A constructor call wrapped in `try`/`except` with a fallback
  declaration, i.e. script-level failure handling. -/
  | tryDeclare (build : Resolved → Resource) (fallback : Resolved → Resource)

/-- `true` iff the statement is a plain, unguarded declaration or export:
no `if`, no loop, no `try`/`except`. -/
def Stmt.isDirect : Stmt → Bool
  | .declare _ => true
  | .exportVal _ _ => true
  | _ => false

/-- `true` iff the statement handles engine failures itself. -/
def Stmt.handlesErrors : Stmt → Bool
  | .tryDeclare _ _ => true
  | _ => false

/-- The builder of a plain declaration, if the statement is one. -/
def Stmt.declared? : Stmt → Option (Resolved → Resource)
  | .declare f => some f
  | _ => none

/-- Result of running a module body: the resources declared to the engine,
the exported key/value pairs, both in execution order, and the error the
run ended with, if any. -/
structure RunOut where
  resources : List Resource
  exports : List (String × String)
  error : Option String
deriving DecidableEq, Repr

/-- Interpreter.  `oracle i` tells whether the engine call made by the
`i`-th statement raises (and with which message); a raised error aborts
the rest of the module body unless the statement catches it.  `e` is the
record of resolved output attributes. -/
def runFrom (oracle : Nat → Option String) (e : Resolved) :
    Nat → List Stmt → RunOut
  | _, [] => { resources := [], exports := [], error := none }
  | i, s :: rest =>
    match s with
    | .declare f =>
      match oracle i with
      | some err => { resources := [], exports := [], error := some err }
      | none =>
        let r := runFrom oracle e (i + 1) rest
        { r with resources := f e :: r.resources }
    | .exportVal k v =>
      match oracle i with
      | some err => { resources := [], exports := [], error := some err }
      | none =>
        let r := runFrom oracle e (i + 1) rest
        { r with exports := (k, v e) :: r.exports }
    | .condDeclare c f =>
      if c e then
        match oracle i with
        | some err => { resources := [], exports := [], error := some err }
        | none =>
          let r := runFrom oracle e (i + 1) rest
          { r with resources := f e :: r.resources }
      else
        runFrom oracle e (i + 1) rest
    | .repeatDeclare n f =>
      match oracle i with
      | some err => { resources := [], exports := [], error := some err }
      | none =>
        let r := runFrom oracle e (i + 1) rest
        { r with resources := List.replicate (n e) (f e) ++ r.resources }
    | .tryDeclare f fb =>
      let r := runFrom oracle e (i + 1) rest
      match oracle i with
      | some _ => { r with resources := fb e :: r.resources }
      | none => { r with resources := f e :: r.resources }

/-- Run a module body from its first statement. -/
def run (oracle : Nat → Option String) (e : Resolved) (stmts : List Stmt) : RunOut :=
  runFrom oracle e 0 stmts

/-- The module body of `src/pulumi/__main__.py`, statement for statement
in textual order. -/
def scriptStmts : List Stmt :=
  [ .declare (fun _ => .vpc "myapp-vpc" vpc),
    .declare (fun e => .subnet "public-subnet-1" (public_subnet_1 e)),
    .declare (fun e => .subnet "public-subnet-2" (public_subnet_2 e)),
    .declare (fun e => .internetGateway "myapp-igw" (internet_gateway e)),
    .declare (fun e => .routeTable "myapp-rt" (route_table e)),
    .declare (fun e => .routeTableAssociation "rta-1" (rta_1 e)),
    .declare (fun e => .routeTableAssociation "rta-2" (rta_2 e)),
    .declare (fun e => .securityGroup "myapp-sg" (security_group e)),
    .declare (fun _ => .ecrRepository "myapp-repo" ecr_repo),
    .declare (fun _ => .ecsCluster "myapp-cluster" cluster),
    .declare (fun _ => .iamRole "myapp-task-exec-role" role),
    .declare (fun e => .ecsTaskDefinition "myapp-task" (task_definition e)),
    .declare (fun e => .applicationLoadBalancer "myapp-alb" (alb e)),
    .declare (fun e => .targetGroup "myapp-tg" (target_group e)),
    .declare (fun e => .albListener "myapp-listener" (listener e)),
    .declare (fun e => .ecsService "myapp-service" (service e)),
    .exportVal "ecr_repo_url" ecr_repo_repository_url,
    .exportVal "alb_dns_name" alb_dns_name ]

/-- A normal run: no engine call raises. -/
def runScript (e : Resolved) : RunOut :=
  run (fun _ => none) e scriptStmts

/-- A concrete record of resolved attributes, used to instantiate
universally quantified theorems. -/
def exampleResolved : Resolved :=
  { vpc_id := "vpc-0a1b2c3d"
    public_subnet_1_id := "subnet-0001"
    public_subnet_2_id := "subnet-0002"
    internet_gateway_id := "igw-0a1b"
    route_table_id := "rtb-0a1b"
    security_group_id := "sg-0a1b"
    role_arn := "arn:aws:iam::774287600271:role/myapp-task-exec-role"
    repository_url := "774287600271.dkr.ecr.us-east-1.amazonaws.com/myapp-repo"
    cluster_arn := "arn:aws:ecs:us-east-1:774287600271:cluster/myapp-cluster"
    task_definition_arn := "arn:aws:ecs:us-east-1:774287600271:task-definition/myapp-task-family:1"
    alb_arn := "arn:aws:elasticloadbalancing:us-east-1:774287600271:loadbalancer/app/myapp-alb"
    alb_dns_name := "myapp-alb-1234567890.us-east-1.elb.amazonaws.com"
    target_group_arn := "arn:aws:elasticloadbalancing:us-east-1:774287600271:targetgroup/myapp-tg" }

/-! ## External input

A Python module could read Pulumi config values, environment variables or
`sys.argv`.  `src/pulumi/__main__.py` imports no such facility and reads
none of them, so the statement list it builds is the same function of the
resolved attributes for every external input. -/

/-- The run-dependent inputs a Pulumi Python program could read:
stack configuration values and process environment variables. -/
structure ExternalInput where
  config : String → Option String
  environ : String → Option String

/-- The module body as a function of the external input.  The source
contains no `pulumi.Config` lookup, no `os.environ` access and no argv
parsing, so no statement depends on `ExternalInput`. -/
def scriptStmtsUnder (_ : ExternalInput) : List Stmt :=
  scriptStmts

/-! ## The spec's resource enumeration (for claim C1) -/

/-- Modelled from the spec's enumeration: "a fixed set of AWS resources
(VPC, subnets, routing, security group, ECR repository, ECS
cluster/task/service, and an Application Load Balancer)".  The internet
gateway, the route table and its associations fall under "routing".  The
enumeration names no IAM role, no target group and no listener. -/
def specListedResourceType : ResourceType → Bool
  | .vpc => true
  | .subnet => true
  | .internetGateway => true
  | .routeTable => true
  | .routeTableAssociation => true
  | .securityGroup => true
  | .ecrRepository => true
  | .ecsCluster => true
  | .iamRole => false
  | .ecsTaskDefinition => true
  | .applicationLoadBalancer => true
  | .targetGroup => false
  | .albListener => false
  | .ecsService => true

/-- The fixed sequence of resource kinds the script declares, in textual
order. -/
def fixedResourceTypes : List ResourceType :=
  [.vpc, .subnet, .subnet, .internetGateway, .routeTable,
   .routeTableAssociation, .routeTableAssociation, .securityGroup,
   .ecrRepository, .ecsCluster, .iamRole, .ecsTaskDefinition,
   .applicationLoadBalancer, .targetGroup, .albListener, .ecsService]

/-! ## IPv4 CIDR semantics (for claim C7)

Standard IPv4/CIDR reading of the dotted-quad strings the script declares.
This is textbook networking semantics, not code of the repository: the
script only passes the strings through to AWS. -/

/-- Split a character list on a separator (keeping empty groups), as in
`"10.0.1.0".split(".")`. -/
def splitOnChar (c : Char) : List Char → List (List Char)
  | [] => [[]]
  | x :: xs =>
    let r := splitOnChar c xs
    if x = c then [] :: r
    else
      match r with
      | [] => [[x]]
      | g :: gs => (x :: g) :: gs

/-- The value of a decimal digit character. -/
def digitVal? (c : Char) : Option Nat :=
  if '0' ≤ c ∧ c ≤ '9' then some (c.toNat - '0'.toNat) else none

/-- Accumulate a decimal numeral. -/
def natOfDigitsAux : List Char → Nat → Option Nat
  | [], acc => some acc
  | c :: cs, acc =>
    match digitVal? c with
    | some d => natOfDigitsAux cs (acc * 10 + d)
    | none => none

/-- Parse a non-empty decimal numeral. -/
def natOfDigits : List Char → Option Nat
  | [] => none
  | cs => natOfDigitsAux cs 0

/-- Parse a dotted-quad IPv4 address into its 32-bit numeric value. -/
def parseIPv4 (cs : List Char) : Option Nat :=
  match splitOnChar '.' cs with
  | [a, b, c, d] =>
    match natOfDigits a, natOfDigits b, natOfDigits c, natOfDigits d with
    | some x, some y, some z, some w =>
      if x < 256 && y < 256 && z < 256 && w < 256 then
        some (((x * 256 + y) * 256 + z) * 256 + w)
      else none
    | _, _, _, _ => none
  | _ => none

/-- Parse `"a.b.c.d/n"` into the pair (base address, prefix length). -/
def parseCidr (s : String) : Option (Nat × Nat) :=
  match splitOnChar '/' s.data with
  | [ip, len] =>
    match parseIPv4 ip, natOfDigits len with
    | some b, some n => if n ≤ 32 then some (b, n) else none
    | _, _ => none
  | _ => none

/-- Address `a` lies in the block of `2 ^ (32 - prefix)` addresses starting
at the (aligned) base address. -/
def memCidr (a : Nat) (c : Nat × Nat) : Bool :=
  decide (c.1 ≤ a ∧ a < c.1 + 2 ^ (32 - c.2))

/-- Address `a` lies in the block denoted by the CIDR string `s`
(`false` if `s` does not parse). -/
def memCidrStr (a : Nat) (s : String) : Bool :=
  match parseCidr s with
  | some c => memCidr a c
  | none => false

/-! ## General lemma: the first raised engine error aborts the rest of a
direct-statement module body -/

/-- If every statement is a plain declaration or export and the engine
call of the `k`-th statement (counting from start index `i`) raises `err`
while all earlier calls succeed, then the run ends with `err` and only the
statements before position `k` have taken effect. -/
theorem runFrom_first_error (oracle : Nat → Option String) (e : Resolved) :
    ∀ (stmts : List Stmt) (i k : Nat) (err : String),
      stmts.all Stmt.isDirect = true →
      oracle (i + k) = some err →
      (∀ j, j < k → oracle (i + j) = none) →
      k < stmts.length →
      runFrom oracle e i stmts =
        { resources := (runFrom (fun _ => none) e i (stmts.take k)).resources
          exports := (runFrom (fun _ => none) e i (stmts.take k)).exports
          error := some err } := by
  intro stmts
  induction stmts with
  | nil =>
    intro i k err _ _ _ hlen
    simp at hlen
  | cons s rest ih =>
    intro i k err hall hfail hok hlen
    rw [List.all_cons, Bool.and_eq_true] at hall
    obtain ⟨hs, hrest⟩ := hall
    cases k with
    | zero =>
      have hi : oracle i = some err := by simpa using hfail
      cases s with
      | declare f => simp [runFrom, hi]
      | exportVal key v => simp [runFrom, hi]
      | condDeclare c f => simp [Stmt.isDirect] at hs
      | repeatDeclare n f => simp [Stmt.isDirect] at hs
      | tryDeclare f fb => simp [Stmt.isDirect] at hs
    | succ k' =>
      have hi : oracle i = none := by simpa using hok 0 (Nat.succ_pos k')
      have hfail' : oracle (i + 1 + k') = some err := by
        rwa [show i + 1 + k' = i + (k' + 1) by omega]
      have hok' : ∀ j, j < k' → oracle (i + 1 + j) = none := by
        intro j hj
        rw [show i + 1 + j = i + (j + 1) by omega]
        exact hok (j + 1) (by omega)
      have hlen' : k' < rest.length := by simpa using hlen
      have ihr := ih (i + 1) k' err hrest hfail' hok' hlen'
      cases s with
      | declare f => simp [runFrom, hi, ihr]
      | exportVal key v => simp [runFrom, hi, ihr]
      | condDeclare c f => simp [Stmt.isDirect] at hs
      | repeatDeclare n f => simp [Stmt.isDirect] at hs
      | tryDeclare f fb => simp [Stmt.isDirect] at hs

/-! ## The claims -/

/-- C1, as stated, is false at the concrete resolved attributes
`exampleResolved`: the script also declares an IAM role
(`iam.Role("myapp-task-exec-role", ...)`, lines 79–94), a resource outside
the spec's enumerated set (as are the ALB's target group and listener), so
not every declared resource is in that set. -/
theorem C1_counterexample_iam_role :
    ((runScript exampleResolved).resources.all
      (fun r => specListedResourceType r.rtype)) = false := by
  decide

/-- C1 (amended): on every run the script declares exactly the fixed
sequence of resources — a VPC, two subnets, an internet gateway, a route
table, two route-table associations, a security group, an ECR repository,
an ECS cluster, an IAM task execution role, an ECS task definition, an
Application Load Balancer, a target group, a listener and an ECS service —
and no resource outside that set; the sequence is the same on every run. -/
theorem C1_fixed_resource_set (e : Resolved) :
    (runScript e).resources.map Resource.rtype = fixedResourceTypes :=
  rfl

/-- C2: every run exports exactly the two values `"ecr_repo_url"` (the
declared repository's `repository_url` attribute) and `"alb_dns_name"`
(the declared ALB's `dns_name` attribute), and nothing else. -/
theorem C2_exports_exactly_two (e : Resolved) :
    (runScript e).exports =
      [("ecr_repo_url", ecr_repo_repository_url e),
       ("alb_dns_name", alb_dns_name e)] :=
  rfl

/-- C3: the module body is a single linear sequence — every statement is a
plain, unguarded declaration or export (no branch, loop or retry), and a
run issues exactly the declared resources, one per `declare` statement, in
textual order. -/
theorem C3_linear_execution (e : Resolved) :
    scriptStmts.all Stmt.isDirect = true ∧
    (runScript e).resources =
      scriptStmts.filterMap (fun s => s.declared?.map (fun f => f e)) :=
  ⟨rfl, rfl⟩

/-- C4: the script contains no failure handling of its own (no statement
catches an engine error), so if the engine call of the `k`-th statement
raises, the error propagates to the caller and no statement after position
`k` takes effect: the run's resources and exports are exactly those of the
first `k` statements. -/
theorem C4_no_script_error_handling (e : Resolved) (oracle : Nat → Option String)
    (k : Nat) (err : String)
    (hfail : oracle k = some err)
    (hbefore : ∀ j, j < k → oracle j = none)
    (hk : k < scriptStmts.length) :
    scriptStmts.all (fun s => ! s.handlesErrors) = true ∧
    run oracle e scriptStmts =
      { resources := (run (fun _ => none) e (scriptStmts.take k)).resources
        exports := (run (fun _ => none) e (scriptStmts.take k)).exports
        error := some err } := by
  refine ⟨rfl, ?_⟩
  exact runFrom_first_error oracle e scriptStmts 0 k err rfl
    (by simpa using hfail) (fun j hj => by simpa using hbefore j hj) hk

/-- Witness for C4: the engine call of statement 11 (the task definition)
raises `"boom"`; the run ends with `"boom"` and only statements 0–10 have
taken effect. -/
theorem C4_no_script_error_handling_witness :
    scriptStmts.all (fun s => ! s.handlesErrors) = true ∧
    run (fun i => if i = 11 then some "boom" else none) exampleResolved scriptStmts =
      { resources :=
          (run (fun _ => none) exampleResolved (scriptStmts.take 11)).resources
        exports :=
          (run (fun _ => none) exampleResolved (scriptStmts.take 11)).exports
        error := some "boom" } :=
  C4_no_script_error_handling exampleResolved
    (fun i => if i = 11 then some "boom" else none) 11 "boom"
    (by decide) (by decide) (by decide)

/-- C5: no statement performs algorithmic computation of the repository's
own: none is guarded, looped or retried, and the two "computed" argument
values highlighted by the spec are literal data — the container-definition
list (whose only computed part is the image string, a pure concatenation)
and the constant assume-role policy document. -/
theorem C5_direct_declarations (e : Resolved) :
    scriptStmts.filter (fun s => ! s.isDirect) = [] ∧
    (task_definition e).container_definitions =
      [{ name := "myapp"
         image := e.repository_url ++ ":latest"
         portMappings := [{ containerPort := 3000, hostPort := 3000, protocol := "tcp" }]
         secrets := [{ name := "DATABASE_URL"
                       valueFrom := "arn:aws:ssm:us-east-1:774287600271:parameter/myapp/database_url" }] }] ∧
    role.assume_role_policy =
      { version := "2008-10-17"
        statement := [{ sid := ""
                        effect := "Allow"
                        principal_service := "ecs-tasks.amazonaws.com"
                        action := "sts:AssumeRole" }] } :=
  ⟨rfl, rfl, rfl⟩

/-- C6: the script reads no input of its own — for any two external
inputs (config values, environment) the statement list is the same, and at
identical resolved attributes the two runs (resources, exports and all)
are identical. -/
theorem C6_deterministic_configuration (ext1 ext2 : ExternalInput) (e : Resolved) :
    scriptStmtsUnder ext1 = scriptStmtsUnder ext2 ∧
    run (fun _ => none) e (scriptStmtsUnder ext1) =
      run (fun _ => none) e (scriptStmtsUnder ext2) :=
  ⟨rfl, rfl⟩

/-- C7: the two declared subnet CIDR blocks are disjoint address ranges,
each is contained in the VPC's CIDR block, and the two subnets sit in two
distinct availability zones. -/
theorem C7_subnet_cidrs (e : Resolved) (a : Nat) :
    ((memCidrStr a (public_subnet_1 e).cidr_block = true →
        ¬ memCidrStr a (public_subnet_2 e).cidr_block = true) ∧
      (memCidrStr a (public_subnet_1 e).cidr_block = true →
        memCidrStr a vpc.cidr_block = true) ∧
      (memCidrStr a (public_subnet_2 e).cidr_block = true →
        memCidrStr a vpc.cidr_block = true)) ∧
    (public_subnet_1 e).availability_zone ≠ (public_subnet_2 e).availability_zone := by
  have s1 : (public_subnet_1 e).cidr_block = "10.0.1.0/24" := rfl
  have s2 : (public_subnet_2 e).cidr_block = "10.0.2.0/24" := rfl
  have sv : vpc.cidr_block = "10.0.0.0/16" := rfl
  have m1 : ∀ b : Nat, memCidrStr b "10.0.1.0/24" = true ↔
      167772416 ≤ b ∧ b < 167772672 := by
    intro b
    show memCidr b (167772416, 24) = true ↔ _
    rw [memCidr, decide_eq_true_eq]
    norm_num
  have m2 : ∀ b : Nat, memCidrStr b "10.0.2.0/24" = true ↔
      167772672 ≤ b ∧ b < 167772928 := by
    intro b
    show memCidr b (167772672, 24) = true ↔ _
    rw [memCidr, decide_eq_true_eq]
    norm_num
  have mv : ∀ b : Nat, memCidrStr b "10.0.0.0/16" = true ↔
      167772160 ≤ b ∧ b < 167837696 := by
    intro b
    show memCidr b (167772160, 16) = true ↔ _
    rw [memCidr, decide_eq_true_eq]
    norm_num
  refine ⟨⟨?_, ?_, ?_⟩, show ("us-east-1a" : String) ≠ "us-east-1b" by decide⟩
  · rw [s1, s2, m1 a, m2 a]
    omega
  · rw [s1, sv, m1 a, mv a]
    omega
  · rw [s2, sv, m2 a, mv a]
    omega

/-- Witness for C7: address `10.0.1.0` (numerically `167772416`) lies in
the first subnet's block, hence not in the second subnet's block, and lies
in the VPC's block. -/
theorem C7_subnet_cidrs_witness :
    ¬ memCidrStr 167772416 (public_subnet_2 exampleResolved).cidr_block = true ∧
    memCidrStr 167772416 vpc.cidr_block = true :=
  ⟨(C7_subnet_cidrs exampleResolved 167772416).1.1 (by decide),
   (C7_subnet_cidrs exampleResolved 167772416).1.2.1 (by decide)⟩

/-- C8: the container name and port the service registers with the target
group equal the name and the `containerPort` of the sole container
definition of the task definition it runs, and the service's subnets and
security groups equal the load balancer's. -/
theorem C8_service_wiring (e : Resolved) :
    (task_definition e).container_definitions.length = 1 ∧
    (service e).load_balancers.map (fun l => l.container_name) =
      (task_definition e).container_definitions.map (fun c => c.name) ∧
    (service e).load_balancers.map (fun l => [l.container_port]) =
      (task_definition e).container_definitions.map
        (fun c => c.portMappings.map (fun p => p.containerPort)) ∧
    (service e).network_configuration.subnets = (alb e).subnets ∧
    (service e).network_configuration.security_groups = (alb e).security_groups :=
  ⟨rfl, rfl, rfl, rfl, rfl⟩

/-- C9: for every resolved repository URL, the image of the task
definition's sole container is the declared ECR repository's
`repository_url` followed by the literal `":latest"` — the task definition
never references an image outside the script's own repository. -/
theorem C9_image_from_own_repo (e : Resolved) :
    (task_definition e).container_definitions.map (fun c => c.image) =
      [ecr_repo_repository_url e ++ ":latest"] :=
  rfl
